import Mathlib

/-!
Verification development for the png-assistant backend relay
(gateway client subsystem in the main server file).

The JavaScript source is shallowly embedded: JSON/JS values become the
inductive `JsValue`, the module-level mutable connection variables
(`gatewayWs`, `gatewayReady`, `gatewayBackoff`, `gatewayLastNonce`, the
per-connection `pending` map) become the record `ConnState`, and each
event handler becomes a pure state-transition function returning the new
state together with the list of observable effects (`Output`): frames
sent on the socket, promise resolutions/rejections, console logs,
broadcasts to the browser clients, and scheduled reconnect timers.
The Ed25519 signature bytes themselves are opaque cryptography and are
not modelled; the signable string (`signString`) that the code feeds to
the signing primitive is modelled exactly.
-/

namespace PngAssistant

/-! ## JavaScript value model -/

/-- A JavaScript/JSON value as handled by the server code.  Object
literals are modelled as association lists with distinct keys (as
produced by `JSON.parse` and the object literals in the source). -/
inductive JsValue where
  | undefined
  | null
  | bool (b : Bool)
  | num (n : Int)
  | str (s : String)
  | arr (elems : List JsValue)
  | obj (fields : List (String × JsValue))

/-- JavaScript truthiness (`!v` is `!truthy v`).  `NaN` is not modelled;
numbers are integers.  Objects and arrays are always truthy. -/
def truthy : JsValue → Bool
  | .undefined => false
  | .null => false
  | .bool b => b
  | .num n => n != 0
  | .str s => s != ""
  | .arr _ => true
  | .obj _ => true

/-- JavaScript `typeof v === 'object'` (true for objects, arrays and
`null`). -/
def typeofObject : JsValue → Bool
  | .null => true
  | .arr _ => true
  | .obj _ => true
  | _ => false

/-- Property access `v.key` at a source site where the base is known
not to be `null`/`undefined`: defined lookup on objects, `undefined`
on every other shape (matching JS property access on primitives and
arrays).  JavaScript property access on a `null`/`undefined` base
throws a TypeError instead; the two source sites where the base is
not guarded - the `msg.type` read at the top of the message handler
and the `req.body` destructuring in the chat endpoint - are modelled
by `handleMessageEx` and `apiChatEx`, which make that thrown error
explicit.  Every other property access in the modelled code is
guarded in the source (by `!v`-style truthiness checks or by an
enclosing branch that already read a property of the same base). -/
def getField (v : JsValue) (key : String) : JsValue :=
  match v with
  | .obj fields =>
    match fields.lookup key with
    | some x => x
    | none => .undefined
  | _ => .undefined

/-- View a value as a string, for `typeof v === 'string'` guards. -/
def JsValue.asString : JsValue → Option String
  | .str s => some s
  | _ => none

/-- Strict equality of a value against a string literal
(`v === 'lit'`). -/
def jsStrEq (v : JsValue) (lit : String) : Bool :=
  v.asString == some lit

/-- JavaScript `a || b`: the first operand if truthy, else the second. -/
def jsOr (a b : JsValue) : JsValue :=
  if truthy a then a else b

/-- `String.prototype.trim()`: strip leading and trailing whitespace
(executable model; the JS whitespace class is modelled by
`Char.isWhitespace`). -/
def jsTrim (s : String) : String :=
  ⟨((s.data.dropWhile Char.isWhitespace).reverse.dropWhile Char.isWhitespace).reverse⟩

/-- `Array.prototype.join(sep)` on an array of strings. -/
def joinWith (sep : String) : List String → String
  | [] => ""
  | [x] => x
  | x :: y :: xs => x ++ sep ++ joinWith sep (y :: xs)

/-! ## Signer (function `signNonce`, plus the fixed client constants) -/

def GATEWAY_CLIENT_ID : String := "gateway-client"
def GATEWAY_CLIENT_MODE : String := "backend"

/-- The signable-string construction used by `signNonce`:
`['v2', device.id, GATEWAY_CLIENT_ID, GATEWAY_CLIENT_MODE, role,
scopes.join(','), String(signedAtMs), token, nonce].join('|')`.
`signNonce` instantiates `role`, `scopes` and `token` with its fixed
values; the construction itself is uniform in them. -/
def signStringOf (deviceId role : String) (scopes : List String)
    (signedAtMs : Nat) (token nonce : String) : String :=
  joinWith "|" ["v2", deviceId, GATEWAY_CLIENT_ID, GATEWAY_CLIENT_MODE, role,
    joinWith "," scopes, Nat.repr signedAtMs, token, nonce]

/-- Result of `signNonce` (the raw Ed25519 signature bytes are opaque
cryptography and are not modelled; everything the code derives from its
inputs before calling the signing primitive is). -/
structure SignResult where
  role : String
  scopes : List String
  clientMode : String
  clientId : String
  signString : String
deriving Repr

/-- `signNonce(device, nonce, signedAtMs)` from the source: fixed role
`operator`, fixed scope list, token from `GATEWAY_TOKEN` (already
defaulted to the empty string), and the pipe-joined signable string. -/
def signNonce (deviceId nonce : String) (signedAtMs : Nat)
    (gatewayToken : String) : SignResult :=
  let role := "operator"
  let scopes := ["operator.admin", "operator.approvals", "operator.pairing"]
  let token := gatewayToken
  { role := role
    scopes := scopes
    clientMode := GATEWAY_CLIENT_MODE
    clientId := GATEWAY_CLIENT_ID
    signString := signStringOf deviceId role scopes signedAtMs token nonce }

/-! ## Text extraction (`extractTextFromMessage`) -/

/-- The per-part extraction inside the `content.map(...)` callback:
a bare string contributes itself; a truthy object-typed part
contributes its `text` field if that is a string, else its `value`
field if that is a string; anything else contributes "". -/
def partText (part : JsValue) : String :=
  match part with
  | .str s => s
  | _ =>
    if truthy part && typeofObject part then
      match (getField part "text").asString with
      | some t => t
      | none =>
        match (getField part "value").asString with
        | some v => v
        | none => ""
    else ""

/-- `extractTextFromMessage(message)` from the source. -/
def extractTextFromMessage (message : JsValue) : String :=
  if !(truthy message) then ""
  else
    match message with
    | .str s => s
    | _ =>
      match (getField message "text").asString with
      | some t => t
      | none =>
        match getField message "content" with
        | .arr parts => joinWith "" (parts.map partText)
        | _ => ""

/-! ## Chat event router (`handleGatewayChatEvent`) -/

/-- A message handed to `broadcast` by the chat router. -/
inductive OutMsg where
  | delta (runId : JsValue) (text : String)
  | chatFinal (runId : JsValue) (text : String) (state : String)
  | chatError (runId : JsValue) (err : JsValue)

/-- `handleGatewayChatEvent(payload)` from the source, returning the
list of broadcast messages it emits. -/
def handleGatewayChatEvent (payload : JsValue) : List OutMsg :=
  if !(truthy payload && typeofObject payload) then []
  else
    let state := getField payload "state"
    let runId := getField payload "runId"
    if jsStrEq state "delta" then
      let text := extractTextFromMessage (getField payload "message")
      if text == "" then [] else [.delta runId text]
    else if jsStrEq state "final" then
      [.chatFinal runId (extractTextFromMessage (getField payload "message")) "done"]
    else if jsStrEq state "error" then
      [.chatError runId
        (jsOr (getField payload "errorMessage")
          (jsOr (getField payload "error") (.str "chat error")))]
    else if jsStrEq state "aborted" then
      [.chatFinal runId (extractTextFromMessage (getField payload "message")) "aborted"]
    else []

/-! ## Connection state and request machinery

The module-level mutable state of the gateway client, plus the
per-connection `pending` map (a `Map` from request id to the
resolve/reject callbacks; only the method string is data, the callbacks
are represented by resolution/rejection `Output`s). -/

def GATEWAY_BACKOFF_MAX : Nat := 30000
def GATEWAY_BACKOFF_INIT : Nat := 1000

structure ConnState where
  /-- `gatewayWs !== null` -/
  wsPresent : Bool
  /-- `gatewayWs.readyState` (1 = OPEN); meaningful only when `wsPresent` -/
  readyState : Nat
  /-- `gatewayReady` (set by hello-ok) -/
  ready : Bool
  /-- `gatewayBackoff` (ms) -/
  backoff : Nat
  /-- `gatewayLastNonce` -/
  lastNonce : Option String
  /-- the `pending` map, id to method, in insertion order -/
  pending : List (String × String)

/-- Parameters of an outbound request frame; only the fields the server
itself constructs are modelled (the Ed25519 signature bytes are
opaque, the device public key is an externally generated constant). -/
inductive ReqParams where
  | connect (deviceId deviceNonce : String) (signedAt : Nat) (signString : String)
  | chatSend (sessionKey message : String) (deliver : Bool) (idempotencyKey : String)
  | other

/-- An outbound `{type:'req', id, method, params}` frame. -/
structure Frame where
  id : String
  method : String
  params : ReqParams

/-- An error value handed to a pending request rejection: either a
JavaScript value (`msg.error || msg`) or an `Error(message)` object. -/
inductive ErrVal where
  | jsv (v : JsValue)
  | errObj (message : String)

/-- Observable effects of the connection handlers. -/
inductive Output where
  | sentReq (f : Frame)
  | resolveP (id : String) (payload : JsValue)
  | rejectP (id : String) (err : ErrVal)
  | emit (m : OutMsg)
  | logChallenge
  | logHelloOk
  | logReqFailed
  | logUnhandled
  | scheduleReconnect (delay : Nat)

/-- `Map.prototype.set`: replace the value at an existing key in place,
else append. -/
def setPending : List (String × String) → String → String → List (String × String)
  | [], id, m => [(id, m)]
  | (k, v) :: rest, id, m =>
    if k = id then (k, m) :: rest else (k, v) :: setPending rest id m

/-- `Map.prototype.delete`: remove the entry with the given key. -/
def erasePending : List (String × String) → String → List (String × String)
  | [], _ => []
  | (k, v) :: rest, id =>
    if k = id then rest else (k, v) :: erasePending rest id

/-- Result of `gatewayWs.request(method, params)`: an immediate
rejection, or a registered pending entry plus a sent frame. -/
structure ReqResult where
  immediateError : Option String
  state : ConnState
  sent : Option Frame

/-- `gatewayWs.request` from the source: rejects immediately with
`gateway not connected` unless the socket exists and is OPEN
(`readyState === 1`); otherwise registers the id in `pending` and
sends the frame. -/
def wsRequest (st : ConnState) (id method : String) (params : ReqParams) : ReqResult :=
  if !st.wsPresent || st.readyState != 1 then
    { immediateError := some "gateway not connected", state := st, sent := none }
  else
    { immediateError := none
      state := { st with pending := setPending st.pending id method }
      sent := some { id := id, method := method, params := params } }

/-- `sendConnect(nonce)`: sign the nonce (at `Date.now()`, modelled as
the parameter `now`) and submit a correlated `connect` request whose
`device.nonce` is the challenge nonce.  The request id is the fresh
UUID `freshId`.  (On immediate rejection the code logs and closes the
socket from the promise `catch`; that asynchronous close is outside
this handler.) -/
def sendConnect (st : ConnState) (deviceId gatewayToken nonce : String)
    (now : Nat) (freshId : String) : ReqResult :=
  let signed := signNonce deviceId nonce now gatewayToken
  wsRequest st freshId "connect" (.connect deviceId nonce now signed.signString)

/-! ## Inbound message handler (`ws.on('message')`) -/

/-- An inbound WebSocket frame: either the raw bytes fail
`JSON.parse`, or they parse to a value. -/
inductive InMsg where
  | unparseable
  | parsed (v : JsValue)

/-- The `connect.challenge` branch guard: `msg.payload && msg.payload.nonce`
then `typeof nonce === 'string' && nonce.trim()`.  Returns the accepted
nonce if the challenge is acted upon. -/
def challengeNonce (m : InMsg) : Option String :=
  match m with
  | .unparseable => none
  | .parsed msg =>
    if jsStrEq (getField msg "type") "event"
        && jsStrEq (getField msg "event") "connect.challenge" then
      let pl := getField msg "payload"
      let nonceV := if truthy pl then getField pl "nonce" else pl
      match nonceV.asString with
      | some s => if jsTrim s != "" then some s else none
      | none => none
    else none

/-- Whether a parsed frame is the hello-ok marker the `res` branch
tests: `msg.ok && msg.payload && msg.payload.type === 'hello-ok'`. -/
def helloOkMarker (msg : JsValue) : Bool :=
  truthy (getField msg "ok") && truthy (getField msg "payload")
    && jsStrEq (getField (getField msg "payload") "type") "hello-ok"

/-- A frame that makes the connection Ready: a `res` frame carrying the
hello-ok marker. -/
def isReadyMsg (m : InMsg) : Bool :=
  match m with
  | .unparseable => false
  | .parsed msg => jsStrEq (getField msg "type") "res" && helloOkMarker msg

/-- The `msg.type === 'event'` branch of the message handler. -/
def handleEventMsg (st : ConnState) (msg : JsValue)
    (deviceId gatewayToken : String) (now : Nat) (freshId : String) :
    ConnState × List Output :=
  if jsStrEq (getField msg "event") "connect.challenge" then
    let pl := getField msg "payload"
    let nonceV := if truthy pl then getField pl "nonce" else pl
    match nonceV.asString with
    | some s =>
      if jsTrim s != "" then
        let st1 := { st with lastNonce := some s }
        let r := sendConnect st1 deviceId gatewayToken s now freshId
        (r.state, .logChallenge ::
          (match r.sent with | some f => [.sentReq f] | none => []))
      else (st, [])
    | none => (st, [])
  else if jsStrEq (getField msg "event") "chat" then
    (st, (handleGatewayChatEvent (getField msg "payload")).map .emit)
  else (st, [])

/-- The `msg.type === 'res'` branch of the message handler: look the id
up in `pending`, delete and resolve/reject if found; then, regardless
of the correlation, set Ready and reset the backoff on the hello-ok
marker, and log failed requests. -/
def handleResMsg (st : ConnState) (msg : JsValue) : ConnState × List Output :=
  let okB := truthy (getField msg "ok")
  let found :=
    match (getField msg "id").asString with
    | some i =>
      match st.pending.lookup i with
      | some _ => some i
      | none => none
    | none => none
  let st1 :=
    match found with
    | some i => { st with pending := erasePending st.pending i }
    | none => st
  let outs1 : List Output :=
    match found with
    | some i =>
      if okB then [.resolveP i (getField msg "payload")]
      else [.rejectP i (.jsv (jsOr (getField msg "error") msg))]
    | none => []
  if helloOkMarker msg then
    ({ st1 with ready := true, backoff := GATEWAY_BACKOFF_INIT }, outs1 ++ [.logHelloOk])
  else if !okB then (st1, outs1 ++ [.logReqFailed])
  else (st1, outs1)

/-- The body of `ws.on('message')` for frames whose parsed value is
not `null`/`undefined` (so the `msg.type` access is safe).
Unparseable frames return silently; `event` frames dispatch on the
event name; `res` frames are correlated; anything else is logged as
an unhandled frame.  The full handler, including the TypeError that
the unguarded `msg.type` access throws on a parsed `null` frame, is
`handleMessageEx`. -/
def handleMessage (st : ConnState) (raw : InMsg)
    (deviceId gatewayToken : String) (now : Nat) (freshId : String) :
    ConnState × List Output :=
  match raw with
  | .unparseable => (st, [])
  | .parsed msg =>
    if jsStrEq (getField msg "type") "event" then
      handleEventMsg st msg deviceId gatewayToken now freshId
    else if jsStrEq (getField msg "type") "res" then
      handleResMsg st msg
    else (st, [.logUnhandled])

/-- `ws.on('message')` in full: JavaScript property access on a
`null`/`undefined` base throws, and the `msg.type` read at the top of
the handler is unguarded, so the parseable frame `null`
(`JSON.parse` succeeds on it) raises a TypeError out of the message
handler - modelled as `none`.  Every other frame is processed totally
by `handleMessage`. -/
def handleMessageEx (st : ConnState) (raw : InMsg)
    (deviceId gatewayToken : String) (now : Nat) (freshId : String) :
    Option (ConnState × List Output) :=
  match raw with
  | .parsed .null => none
  | .parsed .undefined => none
  | _ => some (handleMessage st raw deviceId gatewayToken now freshId)

/-- `ws.on('close')` from the source: reject every pending request with
`gateway closed (code)`, clear the map, drop readiness and the socket,
double the backoff up to the cap, and schedule a reconnect after the
pre-doubling delay. -/
def handleClose (st : ConnState) (code : Nat) : ConnState × List Output :=
  let rejections := st.pending.map fun p =>
    Output.rejectP p.1 (.errObj ("gateway closed (" ++ Nat.repr code ++ ")"))
  let delay := st.backoff
  ({ st with
      pending := []
      ready := false
      wsPresent := false
      backoff := min (st.backoff * 2) GATEWAY_BACKOFF_MAX },
   rejections ++ [.scheduleReconnect delay])

/-- `connectGateway()` state effects: fresh socket (CONNECTING), not
ready, no nonce, fresh empty pending map.  The backoff is untouched. -/
def connectGateway (st : ConnState) : ConnState :=
  { st with
    wsPresent := true
    readyState := 0
    ready := false
    lastNonce := none
    pending := [] }

/-- The socket `open` event: `readyState` becomes OPEN. -/
def socketOpen (st : ConnState) : ConnState :=
  { st with readyState := 1 }

/-- Run the message handler over a sequence of inbound frames, each
with its arrival time and the fresh UUID its handling may consume. -/
def runMsgs (st : ConnState) (deviceId gatewayToken : String) :
    List (InMsg × Nat × String) → ConnState × List Output
  | [] => (st, [])
  | (m, now, fid) :: rest =>
    let r := handleMessage st m deviceId gatewayToken now fid
    let r2 := runMsgs r.1 deviceId gatewayToken rest
    (r2.1, r.2 ++ r2.2)

/-! ## Connection lifecycle (reconnect scheduler view) -/

/-- One event in the life of the module-level connection state:
an inbound frame, a socket close, or the scheduled
`connectGateway` call followed by the socket opening. -/
inductive LifeEvent where
  | inbound (m : InMsg) (now : Nat) (freshId : String)
  | closed (code : Nat)
  | reconnected

def lifeStep (deviceId gatewayToken : String) (st : ConnState) :
    LifeEvent → ConnState × List Output
  | .inbound m now fid => handleMessage st m deviceId gatewayToken now fid
  | .closed c => handleClose st c
  | .reconnected => (socketOpen (connectGateway st), [])

def runLife (deviceId gatewayToken : String) (st : ConnState) :
    List LifeEvent → ConnState
  | [] => st
  | e :: es => runLife deviceId gatewayToken (lifeStep deviceId gatewayToken st e).1 es

/-! ## Registry trace events (for the RequestRegistry claims)

A registration is a `gatewayWs.request` call (ids are `randomUUID()`
values, hence pairwise distinct); a response arrival is an inbound
`res` frame; a close is the socket close event. -/

inductive RegEvent where
  | register (id method : String)
  | response (id : String) (ok : Bool)
  | close (code : Nat)

/-- A `{type:'res', id, ok, payload:null}` frame. -/
def mkResMsg (id : String) (ok : Bool) : JsValue :=
  .obj [("type", .str "res"), ("id", .str id), ("ok", .bool ok), ("payload", .null)]

def regStep (st : ConnState) : RegEvent → ConnState × List Output
  | .register id method =>
    let r := wsRequest st id method .other
    (r.state, match r.sent with | some f => [.sentReq f] | none => [])
  | .response id ok => handleMessage st (.parsed (mkResMsg id ok)) "" "" 0 ""
  | .close c => handleClose st c

def runReg (st : ConnState) : List RegEvent → ConnState × List Output
  | [] => (st, [])
  | e :: es =>
    let r := regStep st e
    let r2 := runReg r.1 es
    (r2.1, r.2 ++ r2.2)

/-- The ids of `register` events of a trace. -/
def regIds (es : List RegEvent) : List String :=
  es.filterMap fun e => match e with | .register i _ => some i | _ => none

/-- The ids passed to `entry.resolve` in an output list. -/
def resolvedIds (outs : List Output) : List String :=
  outs.filterMap fun o => match o with | .resolveP i _ => some i | _ => none

/-- The ids passed to `entry.reject` in an output list. -/
def rejectedIds (outs : List Output) : List String :=
  outs.filterMap fun o => match o with | .rejectP i _ => some i | _ => none

/-- The keys of the pending map. -/
def pendingIds (st : ConnState) : List String :=
  st.pending.map Prod.fst

/-- The `device.nonce` values of the `connect` request frames in an
output list, in emission order. -/
def connectNonces (outs : List Output) : List String :=
  outs.filterMap fun o => match o with
    | .sentReq f =>
      match f.params with
      | .connect _ n _ _ => some n
      | _ => none
    | _ => none

/-! ## HTTP chat boundary (`app.post('/api/chat')`) -/

/-- The synchronous HTTP response of `/api/chat`. -/
structure ChatHttpResult where
  status : Nat
  okFlag : Bool
  idempotencyKey : Option String
  errorMsg : Option String

/-- The body of `app.post('/api/chat')` for requests whose `req.body`
is not `null`/`undefined` (so the `const { text } = req.body`
destructuring succeeds): validate `req.body.text` (400 unless it is a
string that is non-empty after trimming), fail with 503 unless
`gatewayReady && gatewayWs`, else forward `chat.send` with the
trimmed message and a fresh idempotency key (`uuid`), acknowledging
immediately with that key.  The full endpoint, including the
TypeError thrown by the destructuring when no JSON body was parsed,
is `apiChatEx`. -/
def apiChat (st : ConnState) (body : JsValue) (sessionKey uuid : String) :
    ChatHttpResult × ConnState × Option Frame :=
  match (getField body "text").asString with
  | some s =>
    if jsTrim s == "" then
      ({ status := 400, okFlag := false, idempotencyKey := none,
         errorMsg := some "text field is required and must be a non-empty string" },
       st, none)
    else if !st.ready || !st.wsPresent then
      ({ status := 503, okFlag := false, idempotencyKey := none,
         errorMsg := some "Gateway not connected - please wait and retry" },
       st, none)
    else
      let r := wsRequest st uuid "chat.send" (.chatSend sessionKey (jsTrim s) false uuid)
      ({ status := 200, okFlag := true, idempotencyKey := some uuid,
         errorMsg := none },
       r.state, r.sent)
  | none =>
    ({ status := 400, okFlag := false, idempotencyKey := none,
       errorMsg := some "text field is required and must be a non-empty string" },
     st, none)

/-- `app.post('/api/chat')` in full: when `express.json()` did not
parse a body (a POST without a matching JSON body leaves `req.body`
undefined), the destructuring `const { text } = req.body` throws a
TypeError, which Express turns into a 500 response with nothing sent
to the gateway (likewise for a null base, on which destructuring also
throws); otherwise the endpoint behaves as `apiChat`. -/
def apiChatEx (st : ConnState) (body : JsValue) (sessionKey uuid : String) :
    ChatHttpResult × ConnState × Option Frame :=
  match body with
  | .undefined =>
    ({ status := 500, okFlag := false, idempotencyKey := none,
       errorMsg := none }, st, none)
  | .null =>
    ({ status := 500, okFlag := false, idempotencyKey := none,
       errorMsg := none }, st, none)
  | _ => apiChat st body sessionKey uuid

/-- `req.body.text` is rejected by the validation guard
(`!text || typeof text !== 'string' || !text.trim()`). -/
def badChatText (body : JsValue) : Bool :=
  match (getField body "text").asString with
  | some s => jsTrim s == ""
  | none => true

/-- Number of occurrences of a key in a list of keys. -/
def countKey (i : String) : List String → Nat
  | [] => 0
  | k :: rest => (if k = i then 1 else 0) + countKey i rest

/-! ## Concrete instances used by the concrete theorems -/

/-- A reachable state of a fresh connection: socket open
(`readyState = 1`), hello-ok not yet received (`gatewayReady = false`),
initial backoff, nothing pending.  This is the state in which the code
itself expects to send its `connect` request. -/
def openIdleState : ConnState :=
  { wsPresent := true, readyState := 1, ready := false,
    backoff := GATEWAY_BACKOFF_INIT, lastNonce := none, pending := [] }

/-- A `connect.challenge` notification frame carrying nonce `n`. -/
def challengeMsg (n : String) : InMsg :=
  .parsed (.obj [("type", .str "event"), ("event", .str "connect.challenge"),
    ("payload", .obj [("nonce", .str n), ("ts", .num 0)])])

/-- An event frame with an event name the client does not recognize. -/
def unknownEventMsg : InMsg :=
  .parsed (.obj [("type", .str "event"), ("event", .str "mystery"),
    ("payload", .null)])

/-- A successful `res` frame carrying the hello-ok payload marker. -/
def helloOkRes (id : String) : InMsg :=
  .parsed (.obj [("type", .str "res"), ("id", .str id), ("ok", .bool true),
    ("payload", .obj [("type", .str "hello-ok")])])

/-- Whether an output is a console log. -/
def isLogOutput : Output → Bool
  | .logChallenge => true
  | .logHelloOk => true
  | .logReqFailed => true
  | .logUnhandled => true
  | _ => false

/-- A lifecycle event that completes the handshake (hello-ok response
processed by the message handler). -/
def isReadyEvent : LifeEvent → Bool
  | .inbound m _ _ => isReadyMsg m
  | _ => false

/-! ## Helper lemmas -/

/-- A defined string-valued field pins the base down to an object. -/
theorem getField_str_obj {v : JsValue} {k s : String}
    (h : getField v k = .str s) : ∃ fs, v = .obj fs := by
  cases v
  case obj fs => exact ⟨fs, rfl⟩
  all_goals exact JsValue.noConfusion h

theorem strAppendCancelLeft (a x y : String) (h : a ++ x = a ++ y) : x = y :=
  congrArg String.mk (List.append_cancel_left (congrArg String.data h))

theorem strAppendCancelRight (x y b : String) (h : x ++ b = y ++ b) : x = y :=
  congrArg String.mk (List.append_cancel_right (congrArg String.data h))

/-! ## Claim theorems -/

/-- Claim C1: for every device identity, nonce, signed-at timestamp,
role, scope list and token, the signable string is the pipe-joined
concatenation, in order, of the protocol tag `v2`, the device id, the
fixed client id, the fixed client mode, the role, the comma-joined
scopes, the decimal timestamp, the token and the nonce; it is
identical for identical inputs; and changing any single one of those
fields changes the signable string (the scopes field being the
comma-joined scope string and the timestamp field its decimal
representation, as the claim lists them). -/
theorem c1_signable_string :
    ∀ (d r : String) (sc : List String) (t : Nat) (tok n : String),
      (signStringOf d r sc t tok n =
        "v2" ++ "|" ++ d ++ "|" ++ GATEWAY_CLIENT_ID ++ "|" ++ GATEWAY_CLIENT_MODE
          ++ "|" ++ r ++ "|" ++ joinWith "," sc ++ "|" ++ Nat.repr t
          ++ "|" ++ tok ++ "|" ++ n)
      ∧ ((signNonce d n t tok).signString =
          signStringOf d "operator"
            ["operator.admin", "operator.approvals", "operator.pairing"] t tok n)
      ∧ (∀ d2 r2 sc2 t2 tok2 n2, d = d2 → r = r2 → sc = sc2 → t = t2 →
          tok = tok2 → n = n2 →
          signStringOf d r sc t tok n = signStringOf d2 r2 sc2 t2 tok2 n2)
      ∧ (∀ d', signStringOf d' r sc t tok n = signStringOf d r sc t tok n → d' = d)
      ∧ (∀ r', signStringOf d r' sc t tok n = signStringOf d r sc t tok n → r' = r)
      ∧ (∀ sc', signStringOf d r sc' t tok n = signStringOf d r sc t tok n →
          joinWith "," sc' = joinWith "," sc)
      ∧ (∀ t', signStringOf d r sc t' tok n = signStringOf d r sc t tok n →
          Nat.repr t' = Nat.repr t)
      ∧ (∀ tok', signStringOf d r sc t tok' n = signStringOf d r sc t tok n →
          tok' = tok)
      ∧ (∀ n', signStringOf d r sc t tok n' = signStringOf d r sc t tok n →
          n' = n) := by
  intro d r sc t tok n
  refine ⟨?_, rfl, ?_, ?_, ?_, ?_, ?_, ?_, ?_⟩
  · simp only [signStringOf, joinWith, String.append_assoc]
  · rintro d2 r2 sc2 t2 tok2 n2 rfl rfl rfl rfl rfl rfl; rfl
  · intro d' h
    have h1 : ("v2" ++ "|") ++ ((d' ++ "|") ++
        ((GATEWAY_CLIENT_ID ++ "|") ++ ((GATEWAY_CLIENT_MODE ++ "|") ++ ((r ++ "|") ++
          ((joinWith "," sc ++ "|") ++ ((Nat.repr t ++ "|") ++ ((tok ++ "|") ++ n))))))) =
        ("v2" ++ "|") ++ ((d ++ "|") ++
        ((GATEWAY_CLIENT_ID ++ "|") ++ ((GATEWAY_CLIENT_MODE ++ "|") ++ ((r ++ "|") ++
          ((joinWith "," sc ++ "|") ++ ((Nat.repr t ++ "|") ++ ((tok ++ "|") ++ n))))))) := h
    exact strAppendCancelRight _ _ _
      (strAppendCancelRight _ _ _ (strAppendCancelLeft _ _ _ h1))
  · intro r' h
    have h1 : ("v2" ++ "|") ++ ((d ++ "|") ++
        ((GATEWAY_CLIENT_ID ++ "|") ++ ((GATEWAY_CLIENT_MODE ++ "|") ++ ((r' ++ "|") ++
          ((joinWith "," sc ++ "|") ++ ((Nat.repr t ++ "|") ++ ((tok ++ "|") ++ n))))))) =
        ("v2" ++ "|") ++ ((d ++ "|") ++
        ((GATEWAY_CLIENT_ID ++ "|") ++ ((GATEWAY_CLIENT_MODE ++ "|") ++ ((r ++ "|") ++
          ((joinWith "," sc ++ "|") ++ ((Nat.repr t ++ "|") ++ ((tok ++ "|") ++ n))))))) := h
    have h2 := strAppendCancelLeft _ _ _ (strAppendCancelLeft _ _ _
      (strAppendCancelLeft _ _ _ (strAppendCancelLeft _ _ _ h1)))
    exact strAppendCancelRight _ _ _ (strAppendCancelRight _ _ _ h2)
  · intro sc' h
    have h1 : ("v2" ++ "|") ++ ((d ++ "|") ++
        ((GATEWAY_CLIENT_ID ++ "|") ++ ((GATEWAY_CLIENT_MODE ++ "|") ++ ((r ++ "|") ++
          ((joinWith "," sc' ++ "|") ++ ((Nat.repr t ++ "|") ++ ((tok ++ "|") ++ n))))))) =
        ("v2" ++ "|") ++ ((d ++ "|") ++
        ((GATEWAY_CLIENT_ID ++ "|") ++ ((GATEWAY_CLIENT_MODE ++ "|") ++ ((r ++ "|") ++
          ((joinWith "," sc ++ "|") ++ ((Nat.repr t ++ "|") ++ ((tok ++ "|") ++ n))))))) := h
    have h2 := strAppendCancelLeft _ _ _ (strAppendCancelLeft _ _ _
      (strAppendCancelLeft _ _ _ (strAppendCancelLeft _ _ _
        (strAppendCancelLeft _ _ _ h1))))
    exact strAppendCancelRight _ _ _ (strAppendCancelRight _ _ _ h2)
  · intro t' h
    have h1 : ("v2" ++ "|") ++ ((d ++ "|") ++
        ((GATEWAY_CLIENT_ID ++ "|") ++ ((GATEWAY_CLIENT_MODE ++ "|") ++ ((r ++ "|") ++
          ((joinWith "," sc ++ "|") ++ ((Nat.repr t' ++ "|") ++ ((tok ++ "|") ++ n))))))) =
        ("v2" ++ "|") ++ ((d ++ "|") ++
        ((GATEWAY_CLIENT_ID ++ "|") ++ ((GATEWAY_CLIENT_MODE ++ "|") ++ ((r ++ "|") ++
          ((joinWith "," sc ++ "|") ++ ((Nat.repr t ++ "|") ++ ((tok ++ "|") ++ n))))))) := h
    have h2 := strAppendCancelLeft _ _ _ (strAppendCancelLeft _ _ _
      (strAppendCancelLeft _ _ _ (strAppendCancelLeft _ _ _
        (strAppendCancelLeft _ _ _ (strAppendCancelLeft _ _ _ h1)))))
    exact strAppendCancelRight _ _ _ (strAppendCancelRight _ _ _ h2)
  · intro tok' h
    have h1 : ("v2" ++ "|") ++ ((d ++ "|") ++
        ((GATEWAY_CLIENT_ID ++ "|") ++ ((GATEWAY_CLIENT_MODE ++ "|") ++ ((r ++ "|") ++
          ((joinWith "," sc ++ "|") ++ ((Nat.repr t ++ "|") ++ ((tok' ++ "|") ++ n))))))) =
        ("v2" ++ "|") ++ ((d ++ "|") ++
        ((GATEWAY_CLIENT_ID ++ "|") ++ ((GATEWAY_CLIENT_MODE ++ "|") ++ ((r ++ "|") ++
          ((joinWith "," sc ++ "|") ++ ((Nat.repr t ++ "|") ++ ((tok ++ "|") ++ n))))))) := h
    have h2 := strAppendCancelLeft _ _ _ (strAppendCancelLeft _ _ _
      (strAppendCancelLeft _ _ _ (strAppendCancelLeft _ _ _
        (strAppendCancelLeft _ _ _ (strAppendCancelLeft _ _ _
          (strAppendCancelLeft _ _ _ h1))))))
    exact strAppendCancelRight _ _ _ (strAppendCancelRight _ _ _ h2)
  · intro n' h
    have h1 : ("v2" ++ "|") ++ ((d ++ "|") ++
        ((GATEWAY_CLIENT_ID ++ "|") ++ ((GATEWAY_CLIENT_MODE ++ "|") ++ ((r ++ "|") ++
          ((joinWith "," sc ++ "|") ++ ((Nat.repr t ++ "|") ++ ((tok ++ "|") ++ n'))))))) =
        ("v2" ++ "|") ++ ((d ++ "|") ++
        ((GATEWAY_CLIENT_ID ++ "|") ++ ((GATEWAY_CLIENT_MODE ++ "|") ++ ((r ++ "|") ++
          ((joinWith "," sc ++ "|") ++ ((Nat.repr t ++ "|") ++ ((tok ++ "|") ++ n))))))) := h
    exact strAppendCancelLeft _ _ _ (strAppendCancelLeft _ _ _
      (strAppendCancelLeft _ _ _ (strAppendCancelLeft _ _ _
        (strAppendCancelLeft _ _ _ (strAppendCancelLeft _ _ _
          (strAppendCancelLeft _ _ _ (strAppendCancelLeft _ _ _ h1)))))))

/-- Witness for C1 at concrete inputs: the signable string of
`signNonce` evaluates to the expected pipe-joined literal, and the
device-id injectivity implication is discharged at a concrete input. -/
theorem c1_signable_string_witness :
    (signNonce "dev0" "nonce0" 42 "tok0").signString =
      "v2|dev0|gateway-client|backend|operator|operator.admin,operator.approvals,operator.pairing|42|tok0|nonce0"
    ∧ ("dev0" : String) = "dev0" := by
  refine ⟨rfl, ?_⟩
  exact (c1_signable_string "dev0" "operator"
    ["operator.admin", "operator.approvals", "operator.pairing"]
    42 "tok0" "nonce0").2.2.2.1 "dev0" rfl

/-- Unfolding of `extractTextFromMessage` on an object value. -/
theorem extract_obj (fs : List (String × JsValue)) :
    extractTextFromMessage (.obj fs) =
      (match (getField (.obj fs) "text").asString with
       | some t => t
       | none =>
         match getField (.obj fs) "content" with
         | .arr parts => joinWith "" (parts.map partText)
         | _ => "") := rfl

/-- Unfolding of `partText` on an object value. -/
theorem partText_obj (fs : List (String × JsValue)) :
    partText (.obj fs) =
      (match (getField (.obj fs) "text").asString with
       | some t => t
       | none =>
         match (getField (.obj fs) "value").asString with
         | some v => v
         | none => "") := rfl

/-- Claim C6: text extraction returns the message itself for a plain
string; the direct `text` field when that field is a string; for a
message carrying a `content` array, the separator-free in-order
concatenation of the part texts, where a bare-string part contributes
itself, an object part contributes its `text` field or else its
`value` field when one of them is a string, and any other part
contributes ""; and "" for any other shape. -/
theorem c6_text_extraction :
    ∀ m : JsValue,
      (∀ s, m = .str s → extractTextFromMessage m = s)
      ∧ (∀ t, (getField m "text").asString = some t → extractTextFromMessage m = t)
      ∧ (∀ parts, (getField m "text").asString = none →
          getField m "content" = .arr parts →
          extractTextFromMessage m = joinWith "" (parts.map partText))
      ∧ ((∀ s, m ≠ .str s) → (getField m "text").asString = none →
          (∀ parts, getField m "content" ≠ .arr parts) →
          extractTextFromMessage m = "")
      ∧ (∀ s, partText (.str s) = s)
      ∧ (∀ t, (getField m "text").asString = some t → partText m = t)
      ∧ (∀ v, (getField m "text").asString = none →
          (getField m "value").asString = some v → partText m = v)
      ∧ ((∀ s, m ≠ .str s) → (getField m "text").asString = none →
          (getField m "value").asString = none → partText m = "") := by
  intro m
  refine ⟨?_, ?_, ?_, ?_, fun s => rfl, ?_, ?_, ?_⟩
  · rintro s rfl
    by_cases hs : s = "" <;>
      simp [extractTextFromMessage, truthy, hs]
  · intro t ht
    cases m
    case obj fs => rw [extract_obj, ht]
    all_goals exact Option.noConfusion ht
  · intro parts ht hc
    cases m
    case obj fs => rw [extract_obj, ht, hc]
    all_goals exact JsValue.noConfusion hc
  · intro hns ht hc
    cases m
    case str s => exact absurd rfl (hns s)
    case obj fs =>
      rw [extract_obj, ht]
      cases hck : getField (JsValue.obj fs) "content"
      case arr xs => exact absurd hck (hc xs)
      all_goals rfl
    case num k =>
      by_cases hk : k = 0 <;>
        simp [extractTextFromMessage, truthy, hk, getField, JsValue.asString]
    case bool b => cases b <;> rfl
    all_goals rfl
  · intro t ht
    cases m
    case obj fs => rw [partText_obj, ht]
    all_goals exact Option.noConfusion ht
  · intro v ht hv
    cases m
    case obj fs => rw [partText_obj, ht, hv]
    all_goals exact Option.noConfusion hv
  · intro hns ht hv
    cases m
    case str s => exact absurd rfl (hns s)
    case obj fs => rw [partText_obj, ht, hv]
    case num k => simp [partText, truthy, typeofObject]
    case bool b => cases b <;> rfl
    all_goals rfl

/-- Witness for C6 at the concrete examples of the spec: a direct
`text` field, a two-part content array, a bare string, and an
unrecognized shape. -/
theorem c6_text_extraction_witness :
    extractTextFromMessage (.obj [("text", .str "hi")]) = "hi"
    ∧ extractTextFromMessage (.obj [("content",
        .arr [.obj [("type", .str "text"), ("text", .str "a")],
              .obj [("type", .str "text"), ("text", .str "b")]])]) = "ab"
    ∧ extractTextFromMessage (.str "bare") = "bare"
    ∧ extractTextFromMessage (.num 7) = "" := by
  refine ⟨(c6_text_extraction _).2.1 "hi" rfl, ?_,
    (c6_text_extraction _).1 "bare" rfl, ?_⟩
  · exact ((c6_text_extraction (.obj [("content",
      .arr [.obj [("type", .str "text"), ("text", .str "a")],
            .obj [("type", .str "text"), ("text", .str "b")]])])).2.2.1
      [.obj [("type", .str "text"), ("text", .str "a")],
       .obj [("type", .str "text"), ("text", .str "b")]] rfl rfl).trans rfl
  · exact (c6_text_extraction (.num 7)).2.2.2.1
      (fun s h => JsValue.noConfusion h) rfl (fun parts h => JsValue.noConfusion h)

/-- A strict string comparison that succeeds pins down the value. -/
theorem jsStrEq_str {v : JsValue} {s : String} (h : jsStrEq v s = true) :
    v = .str s := by
  cases v <;> simp [jsStrEq, JsValue.asString] at h
  simp [h]

/-- Claim C7: for a well-formed chat payload in state `delta`, a delta
event carrying the runId and the extracted text is broadcast if and
only if the text derived from the message is non-empty; empty derived
text produces no outward event. -/
theorem c7_delta_events :
    ∀ p : JsValue, (truthy p && typeofObject p) = true →
      jsStrEq (getField p "state") "delta" = true →
      ((extractTextFromMessage (getField p "message") ≠ "" →
        handleGatewayChatEvent p =
          [.delta (getField p "runId")
            (extractTextFromMessage (getField p "message"))])
      ∧ (extractTextFromMessage (getField p "message") = "" →
        handleGatewayChatEvent p = [])) := by
  intro p hp hs
  constructor <;> intro htext <;>
    simp [handleGatewayChatEvent, hp, hs, htext]

/-- Witness for C7: a delta payload with non-empty derived text emits
one delta event; a delta payload with empty derived text emits
nothing. -/
theorem c7_delta_events_witness :
    handleGatewayChatEvent (.obj [("state", .str "delta"), ("runId", .str "r1"),
      ("message", .str "hi")]) = [.delta (.str "r1") "hi"]
    ∧ handleGatewayChatEvent (.obj [("state", .str "delta"), ("runId", .str "r1"),
      ("message", .str "")]) = [] := by
  constructor
  · exact (c7_delta_events (.obj [("state", .str "delta"), ("runId", .str "r1"),
      ("message", .str "hi")]) rfl rfl).1 (by decide)
  · exact (c7_delta_events (.obj [("state", .str "delta"), ("runId", .str "r1"),
      ("message", .str "")]) rfl rfl).2 rfl

/-- Claim C9: an `aborted` chat payload produces the same terminal
broadcast as a `final` one, carrying the runId and extracted text,
except tagged `aborted` instead of `done`; a malformed payload, or a
recognized-shape payload with an unrecognized state, produces no event
(and the handler is total, so no error is raised). -/
theorem c9_aborted_terminal :
    ∀ p : JsValue,
      ((truthy p && typeofObject p) = true →
        jsStrEq (getField p "state") "aborted" = true →
        handleGatewayChatEvent p =
          [.chatFinal (getField p "runId")
            (extractTextFromMessage (getField p "message")) "aborted"])
      ∧ ((truthy p && typeofObject p) = true →
        jsStrEq (getField p "state") "final" = true →
        handleGatewayChatEvent p =
          [.chatFinal (getField p "runId")
            (extractTextFromMessage (getField p "message")) "done"])
      ∧ ((truthy p && typeofObject p) = false → handleGatewayChatEvent p = [])
      ∧ ((truthy p && typeofObject p) = true →
        jsStrEq (getField p "state") "delta" = false →
        jsStrEq (getField p "state") "final" = false →
        jsStrEq (getField p "state") "error" = false →
        jsStrEq (getField p "state") "aborted" = false →
        handleGatewayChatEvent p = []) := by
  intro p
  refine ⟨?_, ?_, ?_, ?_⟩
  · intro hp hs
    have hv := jsStrEq_str hs
    simp +decide [handleGatewayChatEvent, hp, hv, jsStrEq, JsValue.asString]
  · intro hp hs
    have hv := jsStrEq_str hs
    simp +decide [handleGatewayChatEvent, hp, hv, jsStrEq, JsValue.asString]
  · intro hp
    simp [handleGatewayChatEvent, hp]
  · intro hp h1 h2 h3 h4
    simp [handleGatewayChatEvent, hp, h1, h2, h3, h4]

/-- Witness for C9: an aborted payload and the equivalent final
payload emit the same terminal broadcast up to the status tag; a
malformed payload and an unknown state emit nothing. -/
theorem c9_aborted_terminal_witness :
    handleGatewayChatEvent (.obj [("state", .str "aborted"), ("runId", .str "r2"),
      ("message", .str "partial")]) = [.chatFinal (.str "r2") "partial" "aborted"]
    ∧ handleGatewayChatEvent (.obj [("state", .str "final"), ("runId", .str "r2"),
      ("message", .str "partial")]) = [.chatFinal (.str "r2") "partial" "done"]
    ∧ handleGatewayChatEvent (.str "not an object") = []
    ∧ handleGatewayChatEvent (.obj [("state", .str "unknown")]) = [] := by
  refine ⟨?_, ?_, ?_, ?_⟩
  · exact (c9_aborted_terminal (.obj [("state", .str "aborted"), ("runId", .str "r2"),
      ("message", .str "partial")])).1 rfl rfl
  · exact (c9_aborted_terminal (.obj [("state", .str "final"), ("runId", .str "r2"),
      ("message", .str "partial")])).2.1 rfl rfl
  · exact (c9_aborted_terminal (.str "not an object")).2.2.1 rfl
  · exact (c9_aborted_terminal (.obj [("state", .str "unknown")])).2.2.2
      rfl rfl rfl rfl rfl

/-! ## Model lemmas about the connection handlers -/

theorem handleEventMsg_ws (st : ConnState) (v : JsValue) (d tok : String)
    (now : Nat) (fid : String) :
    (handleEventMsg st v d tok now fid).1.wsPresent = st.wsPresent
    ∧ (handleEventMsg st v d tok now fid).1.readyState = st.readyState
    ∧ (handleEventMsg st v d tok now fid).1.backoff = st.backoff := by
  unfold handleEventMsg sendConnect wsRequest
  dsimp only
  by_cases hCH : jsStrEq (getField v "event") "connect.challenge" = true
  · rw [if_pos hCH]
    cases hns : (if truthy (getField v "payload") = true
        then getField (getField v "payload") "nonce"
        else getField v "payload").asString with
    | none => exact ⟨rfl, rfl, rfl⟩
    | some s =>
      dsimp only
      by_cases htr : (jsTrim s != "") = true
      · rw [if_pos htr]
        by_cases hw : (!st.wsPresent || st.readyState != 1) = true
        · rw [if_pos hw]; exact ⟨rfl, rfl, rfl⟩
        · rw [if_neg hw]; exact ⟨rfl, rfl, rfl⟩
      · rw [if_neg htr]; exact ⟨rfl, rfl, rfl⟩
  · rw [if_neg hCH]
    by_cases hCHAT : jsStrEq (getField v "event") "chat" = true
    · rw [if_pos hCHAT]; exact ⟨rfl, rfl, rfl⟩
    · rw [if_neg hCHAT]; exact ⟨rfl, rfl, rfl⟩

theorem handleResMsg_ws (st : ConnState) (v : JsValue) :
    (handleResMsg st v).1.wsPresent = st.wsPresent
    ∧ (handleResMsg st v).1.readyState = st.readyState
    ∧ (handleResMsg st v).1.backoff =
        (if helloOkMarker v then GATEWAY_BACKOFF_INIT else st.backoff) := by
  unfold handleResMsg
  dsimp only
  cases hid : (getField v "id").asString with
  | none =>
    by_cases hM : helloOkMarker v = true
    · rw [if_pos hM]; exact ⟨rfl, rfl, by simp [hM]⟩
    · rw [if_neg hM]
      by_cases hok : (!truthy (getField v "ok")) = true
      · rw [if_pos hok]; exact ⟨rfl, rfl, by simp [hM]⟩
      · rw [if_neg hok]; exact ⟨rfl, rfl, by simp [hM]⟩
  | some i =>
    dsimp only
    cases hlk : st.pending.lookup i with
    | none =>
      by_cases hM : helloOkMarker v = true
      · rw [if_pos hM]; exact ⟨rfl, rfl, by simp [hM]⟩
      · rw [if_neg hM]
        by_cases hok : (!truthy (getField v "ok")) = true
        · rw [if_pos hok]; exact ⟨rfl, rfl, by simp [hM]⟩
        · rw [if_neg hok]; exact ⟨rfl, rfl, by simp [hM]⟩
    | some mth =>
      by_cases hM : helloOkMarker v = true
      · rw [if_pos hM]; exact ⟨rfl, rfl, by simp [hM]⟩
      · rw [if_neg hM]
        by_cases hok : (!truthy (getField v "ok")) = true
        · rw [if_pos hok]; exact ⟨rfl, rfl, by simp [hM]⟩
        · rw [if_neg hok]; exact ⟨rfl, rfl, by simp [hM]⟩

/-- The inbound message handler never touches the socket fields, and
its only effect on the backoff is the hello-ok reset. -/
theorem handleMessage_ws (st : ConnState) (m : InMsg) (d tok : String)
    (now : Nat) (fid : String) :
    (handleMessage st m d tok now fid).1.wsPresent = st.wsPresent
    ∧ (handleMessage st m d tok now fid).1.readyState = st.readyState
    ∧ (handleMessage st m d tok now fid).1.backoff =
        (if isReadyMsg m then GATEWAY_BACKOFF_INIT else st.backoff) := by
  cases m with
  | unparseable => exact ⟨rfl, rfl, rfl⟩
  | parsed v =>
    by_cases hE : jsStrEq (getField v "type") "event" = true
    · have hv := jsStrEq_str hE
      have hR : jsStrEq (getField v "type") "res" = false := by
        rw [hv]; rfl
      unfold handleMessage
      dsimp only
      rw [if_pos hE]
      have h3 := handleEventMsg_ws st v d tok now fid
      refine ⟨h3.1, h3.2.1, ?_⟩
      rw [h3.2.2]
      simp [isReadyMsg, hR]
    · by_cases hok : jsStrEq (getField v "type") "res" = true
      · unfold handleMessage
        dsimp only
        rw [if_neg hE, if_pos hok]
        have h3 := handleResMsg_ws st v
        refine ⟨h3.1, h3.2.1, ?_⟩
        rw [h3.2.2]
        simp [isReadyMsg, hok]
      · unfold handleMessage
        dsimp only
        rw [if_neg hE, if_neg hok]
        refine ⟨rfl, rfl, ?_⟩
        simp [isReadyMsg, hok]

theorem connectNonces_append (a b : List Output) :
    connectNonces (a ++ b) = connectNonces a ++ connectNonces b := by
  simp [connectNonces, List.filterMap_append]

theorem connectNonces_emits (l : List OutMsg) :
    connectNonces (l.map Output.emit) = [] := by
  induction l with
  | nil => rfl
  | cons x xs ih =>
    rw [show (x :: xs).map Output.emit = Output.emit x :: xs.map Output.emit from rfl]
    rw [show connectNonces (Output.emit x :: xs.map Output.emit)
        = connectNonces (xs.map Output.emit) from by
      simp [connectNonces, List.filterMap_cons]]
    exact ih

theorem connectNonces_handleResMsg (st : ConnState) (v : JsValue) :
    connectNonces (handleResMsg st v).2 = [] := by
  unfold handleResMsg
  dsimp only
  cases hid : (getField v "id").asString with
  | none =>
    by_cases hM : helloOkMarker v = true
    · rw [if_pos hM]
      by_cases hokB : truthy (getField v "ok") = true <;>
        simp [hokB, connectNonces, List.filterMap_cons, List.filterMap_append]
    · rw [if_neg hM]
      by_cases hok : (!truthy (getField v "ok")) = true
      · rw [if_pos hok]
        by_cases hokB : truthy (getField v "ok") = true <;>
          simp [hokB, connectNonces, List.filterMap_cons, List.filterMap_append]
      · rw [if_neg hok]
        by_cases hokB : truthy (getField v "ok") = true <;>
          simp [hokB, connectNonces, List.filterMap_cons, List.filterMap_append]
  | some i =>
    dsimp only
    cases hlk : st.pending.lookup i with
    | none =>
      by_cases hM : helloOkMarker v = true
      · rw [if_pos hM]
        by_cases hokB : truthy (getField v "ok") = true <;>
          simp [hokB, connectNonces, List.filterMap_cons, List.filterMap_append]
      · rw [if_neg hM]
        by_cases hok : (!truthy (getField v "ok")) = true
        · rw [if_pos hok]
          by_cases hokB : truthy (getField v "ok") = true <;>
            simp [hokB, connectNonces, List.filterMap_cons, List.filterMap_append]
        · rw [if_neg hok]
          by_cases hokB : truthy (getField v "ok") = true <;>
            simp [hokB, connectNonces, List.filterMap_cons, List.filterMap_append]
    | some mth =>
      by_cases hM : helloOkMarker v = true
      · rw [if_pos hM]
        by_cases hokB : truthy (getField v "ok") = true <;>
          simp [hokB, connectNonces, List.filterMap_cons, List.filterMap_append]
      · rw [if_neg hM]
        by_cases hok : (!truthy (getField v "ok")) = true
        · rw [if_pos hok]
          by_cases hokB : truthy (getField v "ok") = true <;>
            simp [hokB, connectNonces, List.filterMap_cons, List.filterMap_append]
        · rw [if_neg hok]
          by_cases hokB : truthy (getField v "ok") = true <;>
            simp [hokB, connectNonces, List.filterMap_cons, List.filterMap_append]

/-- One inbound frame on an open socket emits exactly the connect
requests that the challenge branch triggers: one per acted-upon
challenge, carrying its nonce. -/
theorem step_connectNonces (st : ConnState) (m : InMsg) (d tok : String)
    (now : Nat) (fid : String)
    (h1 : st.wsPresent = true) (h2 : st.readyState = 1) :
    connectNonces (handleMessage st m d tok now fid).2 =
      (challengeNonce m).toList := by
  cases m with
  | unparseable => rfl
  | parsed v =>
    by_cases hE : jsStrEq (getField v "type") "event"
    · by_cases hCH : jsStrEq (getField v "event") "connect.challenge"
      · simp only [handleMessage, hE, if_true, handleEventMsg, hCH,
          challengeNonce, Bool.and_self]
        cases hns : (if truthy (getField v "payload")
            then getField (getField v "payload") "nonce"
            else getField v "payload").asString with
        | none => simp [hns, connectNonces]
        | some s =>
          by_cases htr : jsTrim s != ""
          · simp only [hns, htr, if_true]
            unfold sendConnect wsRequest
            simp [h1, h2, connectNonces, List.filterMap_cons]
          · simp [hns, htr, connectNonces]
      · by_cases hCHAT : jsStrEq (getField v "event") "chat"
        · simp [handleMessage, hE, handleEventMsg, hCH, hCHAT,
            connectNonces_emits, challengeNonce, connectNonces]
        · simp [handleMessage, hE, handleEventMsg, hCH, hCHAT,
            challengeNonce, connectNonces]
    · by_cases hR : jsStrEq (getField v "type") "res" = true
      · unfold handleMessage
        dsimp only
        rw [if_neg hE, if_pos hR, connectNonces_handleResMsg]
        simp [challengeNonce, hE]
      · unfold handleMessage
        dsimp only
        rw [if_neg hE, if_neg hR]
        simp [challengeNonce, hE, connectNonces, List.filterMap_cons]

/-- Counterexample to claim C4 as stated: from the reachable state of a
fresh open connection, a sequence of two valid challenge notifications
makes the client emit two connect requests (one per challenge), so "at
most one connect request per inbound message sequence" is false, and a
challenge received after the first one is not ignored. -/
theorem c4_counterexample :
    ¬ ((connectNonces (runMsgs openIdleState "dev" "tok"
        [(challengeMsg "n1", 5, "id1"), (challengeMsg "n2", 6, "id2")]).2).length ≤ 1)
    ∧ connectNonces (runMsgs openIdleState "dev" "tok"
        [(challengeMsg "n1", 5, "id1"), (challengeMsg "n2", 6, "id2")]).2 =
        ["n1", "n2"] :=
  ⟨by decide, rfl⟩

/-- Claim C4 (amended): the challenge branch has no connection-state
guard; every challenge notification carrying a string nonce that is
non-empty after trimming triggers exactly one connect request echoing
that nonce in `device.nonce` (the most recent challenge wins for the
stored nonce, not the first).  Over any inbound message sequence on an
open socket, the emitted connect-request nonces are exactly the valid
challenge nonces, in order; in particular a single challenge with
nonce n yields exactly one connect request with `device.nonce = n`. -/
theorem c4_challenge_connects :
    ∀ (st : ConnState) (d tok : String) (xs : List (InMsg × Nat × String)),
      st.wsPresent = true → st.readyState = 1 →
      connectNonces (runMsgs st d tok xs).2 =
        xs.filterMap (fun e => challengeNonce e.1) := by
  intro st d tok xs
  induction xs generalizing st with
  | nil => intro _ _; rfl
  | cons x rest ih =>
    intro h1 h2
    obtain ⟨m, now, fid⟩ := x
    have hws := handleMessage_ws st m d tok now fid
    show connectNonces ((handleMessage st m d tok now fid).2 ++
      (runMsgs (handleMessage st m d tok now fid).1 d tok rest).2) = _
    rw [connectNonces_append, step_connectNonces st m d tok now fid h1 h2,
      ih _ (by rw [hws.1]; exact h1) (by rw [hws.2.1]; exact h2)]
    simp only [List.filterMap_cons]
    cases challengeNonce m <;> simp

/-- Witness for C4 (amended) at a concrete input: one valid challenge,
one connect request echoing its nonce. -/
theorem c4_challenge_connects_witness :
    connectNonces (runMsgs openIdleState "dev" "tok"
      [(challengeMsg "n1", 5, "id1")]).2 = ["n1"] :=
  (c4_challenge_connects openIdleState "dev" "tok"
    [(challengeMsg "n1", 5, "id1")] rfl rfl).trans rfl

/-- Counterexample to claim C3 as stated: with the socket open but the
handshake not complete (`gatewayReady = false`, i.e. the connection is
not in the spec Ready state), `gatewayWs.request` does not fail fast
with a not-connected error: it registers the request in the pending
map and sends the frame. -/
theorem c3_counterexample :
    openIdleState.ready = false
    ∧ (wsRequest openIdleState "req1" "chat.send" .other).immediateError = none
    ∧ (wsRequest openIdleState "req1" "chat.send" .other).sent =
        some { id := "req1", method := "chat.send", params := .other }
    ∧ (wsRequest openIdleState "req1" "chat.send" .other).state.pending =
        [("req1", "chat.send")] :=
  ⟨rfl, rfl, rfl, rfl⟩

/-- Claim C3 (amended): `gatewayWs.request` fails fast with the
`gateway not connected` error, without queueing or sending anything,
exactly when the socket is absent or not OPEN (`readyState ≠ 1`) — not
whenever the handshake is incomplete; and a chat turn submitted over
the HTTP boundary while the connection is not Ready is never accepted:
nothing is forwarded, the acknowledgement is not a 200, and a
well-formed chat turn receives exactly a 503 service-unavailable
response. -/
theorem c3_fail_fast :
    ∀ (st : ConnState) (id method : String) (p : ReqParams),
      ((st.wsPresent = false ∨ st.readyState ≠ 1) →
        wsRequest st id method p =
          { immediateError := some "gateway not connected", state := st,
            sent := none })
      ∧ (∀ (body : JsValue) (sk uuid : String),
          st.ready = false →
          (apiChat st body sk uuid).1.status ≠ 200
          ∧ (apiChat st body sk uuid).2.2 = none
          ∧ (badChatText body = false →
              (apiChat st body sk uuid).1.status = 503)) := by
  intro st id method p
  constructor
  · intro h
    have hc : (!st.wsPresent || st.readyState != 1) = true := by
      rcases h with h | h <;> simp [h]
    unfold wsRequest
    rw [if_pos hc]
  · intro body sk uuid hr
    cases hts : (getField body "text").asString with
    | none =>
      refine ⟨by simp [apiChat, hts], by simp [apiChat, hts], fun hb => ?_⟩
      simp [badChatText, hts] at hb
    | some s =>
      by_cases htr : (jsTrim s == "") = true
      · refine ⟨by simp [apiChat, hts, htr], by simp [apiChat, hts, htr],
          fun hb => ?_⟩
        simp [badChatText, hts, htr] at hb
      · have hg : (!st.ready || !st.wsPresent) = true := by simp [hr]
        exact ⟨by simp [apiChat, hts, htr, hg],
          by simp [apiChat, hts, htr, hg],
          fun _ => by simp [apiChat, hts, htr, hg]⟩

/-- Witness for C3 (amended) at concrete inputs: a request on a closed
socket is rejected immediately, and a valid chat turn while not Ready
receives a 503. -/
theorem c3_fail_fast_witness :
    wsRequest { openIdleState with readyState := 3 } "r1" "chat.send" .other =
      { immediateError := some "gateway not connected",
        state := { openIdleState with readyState := 3 }, sent := none }
    ∧ (apiChat openIdleState (.obj [("text", .str "hello")]) "sk" "u1").1.status
        = 503 := by
  constructor
  · exact (c3_fail_fast { openIdleState with readyState := 3 }
      "r1" "chat.send" .other).1 (Or.inr (by decide))
  · exact ((c3_fail_fast openIdleState "r1" "chat.send" .other).2
      (.obj [("text", .str "hello")]) "sk" "u1" rfl).2.2 rfl

/-- Counterexample to claim C8 as stated: an unparseable frame and an
event frame with an unrecognized event name are both discarded with no
log output at all, and the parseable frame `null` (`JSON.parse` yields
`null`, then the unguarded `msg.type` access throws) raises a
TypeError out of the message handler - so neither "logged and
discarded" nor "never raises an error out of the message handler"
holds for every unrecognized frame. -/
theorem c8_counterexample :
    handleMessageEx openIdleState .unparseable "dev" "tok" 0 "f1" =
      some (openIdleState, [])
    ∧ handleMessageEx openIdleState unknownEventMsg "dev" "tok" 0 "f1" =
      some (openIdleState, [])
    ∧ handleMessageEx openIdleState (.parsed .null) "dev" "tok" 0 "f1" = none :=
  ⟨rfl, rfl, rfl⟩

/-- Claim C8 (amended): an unparseable frame is discarded silently
with no output and no state change; the parseable frame `null` (or an
undefined value) makes the unguarded `msg.type` access throw a
TypeError out of the message handler; an event frame whose event name
is neither `connect.challenge` nor `chat` is discarded silently; and
any other parsed frame whose type is neither `event` nor `res` is
logged as an unhandled frame and discarded with no state change.  No
frame other than a parsed `null`/`undefined` raises. -/
theorem c8_unrecognized_frames :
    ∀ (st : ConnState) (d tok : String) (now : Nat) (fid : String),
      (handleMessageEx st .unparseable d tok now fid = some (st, []))
      ∧ (handleMessageEx st (.parsed .null) d tok now fid = none
         ∧ handleMessageEx st (.parsed .undefined) d tok now fid = none)
      ∧ (∀ v, jsStrEq (getField v "type") "event" = true →
          jsStrEq (getField v "event") "connect.challenge" = false →
          jsStrEq (getField v "event") "chat" = false →
          handleMessageEx st (.parsed v) d tok now fid = some (st, []))
      ∧ (∀ v, v ≠ .null → v ≠ .undefined →
          jsStrEq (getField v "type") "event" = false →
          jsStrEq (getField v "type") "res" = false →
          handleMessageEx st (.parsed v) d tok now fid =
            some (st, [.logUnhandled])) := by
  intro st d tok now fid
  refine ⟨rfl, ⟨rfl, rfl⟩, ?_, ?_⟩
  · intro v hE hCH hCHAT
    obtain ⟨fs, rfl⟩ := getField_str_obj (jsStrEq_str hE)
    refine congrArg some ?_
    unfold handleMessage handleEventMsg
    dsimp only
    rw [if_pos hE, if_neg (by simp [hCH]), if_neg (by simp [hCHAT])]
  · intro v hnn hnu hE hR
    cases v
    case null => exact absurd rfl hnn
    case undefined => exact absurd rfl hnu
    all_goals
      (refine congrArg some ?_
       unfold handleMessage
       dsimp only
       rw [if_neg (by simp [hE]), if_neg (by simp [hR])])

/-- Witness for C8 (amended) at concrete frames: an unrecognized event
name is silently dropped; a frame with an unknown type is logged; the
`null` frame throws. -/
theorem c8_unrecognized_frames_witness :
    handleMessageEx openIdleState unknownEventMsg "dev" "tok" 0 "f1" =
      some (openIdleState, [])
    ∧ handleMessageEx openIdleState
        (.parsed (.obj [("type", .str "banana")])) "dev" "tok" 0 "f1" =
      some (openIdleState, [.logUnhandled])
    ∧ handleMessageEx openIdleState (.parsed .null) "dev" "tok" 0 "f1"
      = none := by
  refine ⟨?_, ?_,
    (c8_unrecognized_frames openIdleState "dev" "tok" 0 "f1").2.1.1⟩
  · exact (c8_unrecognized_frames openIdleState "dev" "tok" 0 "f1").2.2.1
      (.obj [("type", .str "event"), ("event", .str "mystery"),
        ("payload", .null)]) rfl rfl rfl
  · exact (c8_unrecognized_frames openIdleState "dev" "tok" 0 "f1").2.2.2
      (.obj [("type", .str "banana")]) (fun h => JsValue.noConfusion h)
      (fun h => JsValue.noConfusion h) rfl rfl

/-- Behaviour of the endpoint body `apiChat` (requests whose `req.body`
survived the destructuring): a text that is missing, not a string, or
whitespace-only gets a 400 and nothing is sent to the gateway;
whenever a frame is forwarded, its message is the trimmed input text
and the idempotency key acknowledged to the caller is the one
forwarded. -/
theorem apiChat_spec :
    ∀ (st : ConnState) (body : JsValue) (sessionKey uuid : String),
      (badChatText body = true →
        (apiChat st body sessionKey uuid).1.status = 400
        ∧ (apiChat st body sessionKey uuid).2.2 = none)
      ∧ (∀ f, (apiChat st body sessionKey uuid).2.2 = some f →
          ∃ s, (getField body "text").asString = some s
            ∧ f = { id := uuid, method := "chat.send",
                    params := .chatSend sessionKey (jsTrim s) false uuid }
            ∧ (apiChat st body sessionKey uuid).1.idempotencyKey = some uuid
            ∧ (apiChat st body sessionKey uuid).1.status = 200) := by
  intro st body sk uuid
  constructor
  · intro hb
    cases hts : (getField body "text").asString with
    | none => exact ⟨by simp [apiChat, hts], by simp [apiChat, hts]⟩
    | some s =>
      have htr : (jsTrim s == "") = true := by
        simpa [badChatText, hts] using hb
      exact ⟨by simp [apiChat, hts, htr], by simp [apiChat, hts, htr]⟩
  · intro f hf
    cases hts : (getField body "text").asString with
    | none => simp [apiChat, hts] at hf
    | some s =>
      by_cases htr : (jsTrim s == "") = true
      · simp [apiChat, hts, htr] at hf
      · by_cases hg : (!st.ready || !st.wsPresent) = true
        · simp [apiChat, hts, htr, hg] at hf
        · by_cases hw : (!st.wsPresent || st.readyState != 1) = true
          · rw [show (apiChat st body sk uuid).2.2 = none from by
              simp [apiChat, hts, htr, hg, wsRequest, hw]] at hf
            exact Option.noConfusion hf
          · have hcomp : (apiChat st body sk uuid).2.2 =
                some { id := uuid, method := "chat.send",
                       params := ReqParams.chatSend sk (jsTrim s) false uuid } := by
              simp [apiChat, hts, htr, hg, wsRequest, hw]
            rw [hcomp] at hf
            obtain rfl := Option.some.inj hf
            exact ⟨s, rfl, rfl, by simp [apiChat, hts, htr, hg],
              by simp [apiChat, hts, htr, hg]⟩

/-- Counterexample to claim C10 as stated: a POST without a JSON body
leaves `req.body` undefined, so the text field is missing, yet the
endpoint answers 500 - the destructuring `const { text } = req.body`
throws and Express runs its default error handler - not the claimed
400, and nothing is sent to the gateway. -/
theorem c10_counterexample :
    (apiChatEx openIdleState .undefined "agent:main:main" "u9").1.status = 500
    ∧ ¬ ((apiChatEx openIdleState .undefined "agent:main:main" "u9").1.status
        = 400)
    ∧ (apiChatEx openIdleState .undefined "agent:main:main" "u9").2.2 = none :=
  ⟨rfl, by decide, rfl⟩

/-- Claim C10 (amended): a chat request with no parsed JSON body
(`req.body` undefined, or a null base) makes the handler throw on the
destructuring and Express answers 500 with nothing sent to the
gateway; for every other request, a text field that is missing, not a
string, or whitespace-only gets a 400 with nothing sent; and whenever
a frame is forwarded, its message equals the input text with leading
and trailing whitespace removed and the idempotency key returned in
the acknowledgement equals the one forwarded. -/
theorem c10_chat_endpoint :
    ∀ (st : ConnState) (body : JsValue) (sessionKey uuid : String),
      ((body = .undefined ∨ body = .null) →
        (apiChatEx st body sessionKey uuid).1.status = 500
        ∧ (apiChatEx st body sessionKey uuid).2.2 = none)
      ∧ (body ≠ .undefined → body ≠ .null → badChatText body = true →
        (apiChatEx st body sessionKey uuid).1.status = 400
        ∧ (apiChatEx st body sessionKey uuid).2.2 = none)
      ∧ (∀ f, (apiChatEx st body sessionKey uuid).2.2 = some f →
          ∃ s, (getField body "text").asString = some s
            ∧ f = { id := uuid, method := "chat.send",
                    params := .chatSend sessionKey (jsTrim s) false uuid }
            ∧ (apiChatEx st body sessionKey uuid).1.idempotencyKey = some uuid
            ∧ (apiChatEx st body sessionKey uuid).1.status = 200) := by
  intro st body sk uuid
  refine ⟨?_, ?_, ?_⟩
  · rintro (rfl | rfl) <;> exact ⟨rfl, rfl⟩
  · intro hnu hnn hb
    have hdeleg : apiChatEx st body sk uuid = apiChat st body sk uuid := by
      cases body
      case undefined => exact absurd rfl hnu
      case null => exact absurd rfl hnn
      all_goals rfl
    rw [hdeleg]
    exact (apiChat_spec st body sk uuid).1 hb
  · intro f hf
    have hne : body ≠ .undefined ∧ body ≠ .null := by
      constructor <;> rintro rfl <;> simp [apiChatEx] at hf
    have hdeleg : apiChatEx st body sk uuid = apiChat st body sk uuid := by
      cases body
      case undefined => exact absurd rfl hne.1
      case null => exact absurd rfl hne.2
      all_goals rfl
    rw [hdeleg] at hf ⊢
    exact (apiChat_spec st body sk uuid).2 f hf

/-- Witness for C10 (amended) at concrete inputs: a missing body gets
a 500 with nothing forwarded; a whitespace-only text gets a 400 with
nothing forwarded; a padded text is forwarded trimmed with the
acknowledged idempotency key. -/
theorem c10_chat_endpoint_witness :
    (apiChatEx openIdleState .undefined "agent:main:main" "u3").1.status = 500
    ∧ (apiChatEx openIdleState (.obj [("text", .str "   ")])
        "agent:main:main" "u4").1.status = 400
    ∧ (apiChatEx openIdleState (.obj [("text", .str "   ")])
        "agent:main:main" "u4").2.2 = none
    ∧ (apiChatEx { openIdleState with ready := true }
        (.obj [("text", .str "  hi  ")]) "agent:main:main" "u5").2.2 =
        some { id := "u5", method := "chat.send",
               params := .chatSend "agent:main:main" "hi" false "u5" }
    ∧ (apiChatEx { openIdleState with ready := true }
        (.obj [("text", .str "  hi  ")]) "agent:main:main" "u5").1.idempotencyKey
      = some "u5" := by
  have h400 := (c10_chat_endpoint openIdleState (.obj [("text", .str "   ")])
    "agent:main:main" "u4").2.1 (fun h => JsValue.noConfusion h)
    (fun h => JsValue.noConfusion h) rfl
  refine ⟨((c10_chat_endpoint openIdleState .undefined "agent:main:main"
      "u3").1 (Or.inl rfl)).1, h400.1, h400.2, rfl, rfl⟩

/-- One lifecycle step keeps the backoff within
`[GATEWAY_BACKOFF_INIT, GATEWAY_BACKOFF_MAX]` and never decreases it
unless the step completes the handshake. -/
theorem lifeStep_backoff (d tok : String) (st : ConnState) (e : LifeEvent)
    (h1 : GATEWAY_BACKOFF_INIT ≤ st.backoff)
    (h2 : st.backoff ≤ GATEWAY_BACKOFF_MAX) :
    GATEWAY_BACKOFF_INIT ≤ (lifeStep d tok st e).1.backoff
    ∧ (lifeStep d tok st e).1.backoff ≤ GATEWAY_BACKOFF_MAX
    ∧ (isReadyEvent e = false → st.backoff ≤ (lifeStep d tok st e).1.backoff) := by
  have eI : GATEWAY_BACKOFF_INIT = 1000 := rfl
  have eM : GATEWAY_BACKOFF_MAX = 30000 := rfl
  cases e with
  | inbound m now fid =>
    have h3 := (handleMessage_ws st m d tok now fid).2.2
    dsimp only [lifeStep]
    rw [h3]
    by_cases hr : isReadyMsg m = true
    · rw [if_pos hr]
      refine ⟨le_refl _, by rw [eI, eM]; omega, fun hfalse => ?_⟩
      have : isReadyEvent (.inbound m now fid) = isReadyMsg m := rfl
      rw [this, hr] at hfalse
      exact absurd hfalse (by simp)
    · rw [if_neg hr]
      exact ⟨h1, h2, fun _ => le_refl _⟩
  | closed c =>
    have hb : (lifeStep d tok st (.closed c)).1.backoff =
        min (st.backoff * 2) GATEWAY_BACKOFF_MAX := rfl
    rw [hb]
    refine ⟨Nat.le_min.mpr ⟨by rw [eI] at h1 ⊢; omega, by rw [eI, eM]; omega⟩,
      Nat.min_le_right _ _,
      fun _ => Nat.le_min.mpr ⟨by omega, h2⟩⟩
  | reconnected =>
    exact ⟨h1, h2, fun _ => le_refl _⟩

/-- Over a whole lifecycle trace the backoff stays within its bounds,
and is non-decreasing as long as no handshake completes. -/
theorem runLife_backoff (d tok : String) (es : List LifeEvent) :
    ∀ st : ConnState,
      GATEWAY_BACKOFF_INIT ≤ st.backoff → st.backoff ≤ GATEWAY_BACKOFF_MAX →
      GATEWAY_BACKOFF_INIT ≤ (runLife d tok st es).backoff
      ∧ (runLife d tok st es).backoff ≤ GATEWAY_BACKOFF_MAX
      ∧ ((∀ e ∈ es, isReadyEvent e = false) →
          st.backoff ≤ (runLife d tok st es).backoff) := by
  induction es with
  | nil => exact fun st h1 h2 => ⟨h1, h2, fun _ => le_refl _⟩
  | cons e rest ih =>
    intro st h1 h2
    have hs := lifeStep_backoff d tok st e h1 h2
    have ihr := ih (lifeStep d tok st e).1 hs.1 hs.2.1
    refine ⟨ihr.1, ihr.2.1, fun hall => ?_⟩
    exact le_trans (hs.2.2 (hall e (by simp)))
      (ihr.2.2 fun e2 he2 => hall e2 (by simp [he2]))

/-- Claim C5: the reconnect delay is monotonically non-decreasing over
any trace of closures, inbound frames and reconnect attempts that
contains no handshake completion; it always stays between the initial
delay and the cap; every closure schedules a reconnect after the
current (pre-doubling) delay and doubles the stored delay up to the
cap; and processing a hello-ok response resets the delay to the
initial value. -/
theorem c5_backoff_policy :
    ∀ (st : ConnState) (d tok : String) (es : List LifeEvent),
      GATEWAY_BACKOFF_INIT ≤ st.backoff → st.backoff ≤ GATEWAY_BACKOFF_MAX →
      ((∀ e ∈ es, isReadyEvent e = false) →
          st.backoff ≤ (runLife d tok st es).backoff)
      ∧ GATEWAY_BACKOFF_INIT ≤ (runLife d tok st es).backoff
      ∧ (runLife d tok st es).backoff ≤ GATEWAY_BACKOFF_MAX
      ∧ (∀ c, Output.scheduleReconnect st.backoff ∈ (handleClose st c).2
          ∧ (handleClose st c).1.backoff =
              min (st.backoff * 2) GATEWAY_BACKOFF_MAX
          ∧ st.backoff ≤ (handleClose st c).1.backoff
          ∧ (handleClose st c).1.backoff ≤ GATEWAY_BACKOFF_MAX)
      ∧ (∀ (m : InMsg) (now : Nat) (fid : String), isReadyMsg m = true →
          (handleMessage st m d tok now fid).1.backoff =
            GATEWAY_BACKOFF_INIT) := by
  intro st d tok es h1 h2
  have hr := runLife_backoff d tok es st h1 h2
  refine ⟨hr.2.2, hr.1, hr.2.1, fun c => ?_, fun m now fid hm => ?_⟩
  · refine ⟨by simp [handleClose], rfl,
      Nat.le_min.mpr ⟨by omega, h2⟩, Nat.min_le_right _ _⟩
  · rw [(handleMessage_ws st m d tok now fid).2.2, if_pos hm]

/-- Witness for C5 at a concrete trace: two closures from the initial
delay double it to 4000; the first closure schedules a reconnect after
1000 ms; a hello-ok response resets the delay to 1000. -/
theorem c5_backoff_policy_witness :
    (runLife "d" "t" openIdleState [.closed 2, .closed 2]).backoff = 4000
    ∧ 1000 ≤ (runLife "d" "t" openIdleState [.closed 2, .closed 2]).backoff
    ∧ Output.scheduleReconnect 1000 ∈ (handleClose openIdleState 2).2
    ∧ (handleMessage openIdleState (helloOkRes "x") "d" "t" 0 "f").1.backoff
        = 1000 := by
  have h := c5_backoff_policy openIdleState "d" "t" [.closed 2, .closed 2]
    (by decide) (by decide)
  exact ⟨rfl, h.1 (by decide), (h.2.2.2.1 2).1,
    h.2.2.2.2 (helloOkRes "x") 0 "f" rfl⟩

/-! ## Counting lemmas for the request registry -/

theorem countKey_append (i : String) (a b : List String) :
    countKey i (a ++ b) = countKey i a + countKey i b := by
  induction a with
  | nil => simp [countKey]
  | cons k rest ih => simp [countKey, ih]; omega

theorem countKey_eq_zero (i : String) (l : List String) (h : i ∉ l) :
    countKey i l = 0 := by
  induction l with
  | nil => rfl
  | cons k rest ih =>
    rw [List.mem_cons] at h
    push_neg at h
    have hk : k ≠ i := fun he => h.1 he.symm
    simp [countKey, hk, ih h.2]

theorem countKey_le_one (l : List String) (h : l.Nodup) (i : String) :
    countKey i l ≤ 1 := by
  induction l with
  | nil => simp [countKey]
  | cons k rest ih =>
    rw [List.nodup_cons] at h
    by_cases hk : k = i
    · subst hk
      simp [countKey, countKey_eq_zero k rest h.1]
    · simp only [countKey, if_neg hk, Nat.zero_add]
      exact ih h.2

theorem setPending_countKey (p : List (String × String)) (id mth i : String) :
    countKey i ((setPending p id mth).map Prod.fst) ≤
      countKey i (p.map Prod.fst) + (if id = i then 1 else 0) := by
  induction p with
  | nil => simp [setPending, countKey]
  | cons kv rest ih =>
    obtain ⟨k, v⟩ := kv
    by_cases hk : k = id
    · subst hk
      simp only [setPending, if_pos rfl, List.map_cons, countKey]
      omega
    · simp only [setPending, if_neg hk, List.map_cons, countKey]
      omega

theorem erasePending_countKey (p : List (String × String)) (i j mth : String)
    (h : p.lookup i = some mth) :
    countKey j ((erasePending p i).map Prod.fst) + (if i = j then 1 else 0) =
      countKey j (p.map Prod.fst) := by
  induction p with
  | nil => simp [List.lookup] at h
  | cons kv rest ih =>
    obtain ⟨k, v⟩ := kv
    by_cases hk : k = i
    · have he : erasePending ((k, v) :: rest) i = rest := by
        simp [erasePending, hk]
      have hm : ((k, v) :: rest).map Prod.fst = k :: rest.map Prod.fst := rfl
      rw [he, hm]
      simp only [countKey]
      rw [hk]
      omega
    · have hbk : (i == k) = false := beq_eq_false_iff_ne.mpr fun he => hk he.symm
      have h2 : List.lookup i rest = some mth := by
        have hr : List.lookup i ((k, v) :: rest) = List.lookup i rest := by
          simp [List.lookup, hbk]
        rw [← hr]; exact h
      have he : erasePending ((k, v) :: rest) i = (k, v) :: erasePending rest i := by
        simp [erasePending, hk]
      rw [he]
      simp only [List.map_cons, countKey]
      have := ih h2
      omega

theorem resolvedIds_append (a b : List Output) :
    resolvedIds (a ++ b) = resolvedIds a ++ resolvedIds b := by
  simp [resolvedIds, List.filterMap_append]

theorem rejectedIds_append (a b : List Output) :
    rejectedIds (a ++ b) = rejectedIds a ++ rejectedIds b := by
  simp [rejectedIds, List.filterMap_append]

theorem rejectedIds_closeRejections (p : List (String × String)) (e : ErrVal) :
    rejectedIds (p.map fun q => Output.rejectP q.1 e) = p.map Prod.fst := by
  induction p with
  | nil => rfl
  | cons kv rest ih =>
    have h1 : rejectedIds ((kv :: rest).map fun q => Output.rejectP q.1 e) =
        kv.1 :: rejectedIds (rest.map fun q => Output.rejectP q.1 e) := by
      simp only [List.map_cons, rejectedIds, List.filterMap_cons]
    rw [h1, ih, List.map_cons]

theorem resolvedIds_closeRejections (p : List (String × String)) (e : ErrVal) :
    resolvedIds (p.map fun q => Output.rejectP q.1 e) = [] := by
  induction p with
  | nil => rfl
  | cons kv rest ih =>
    have h1 : resolvedIds ((kv :: rest).map fun q => Output.rejectP q.1 e) =
        resolvedIds (rest.map fun q => Output.rejectP q.1 e) := by
      simp only [List.map_cons, resolvedIds, List.filterMap_cons]
    rw [h1, ih]

/-- Evaluation of the message handler on a synthetic `res` frame: the
matching pending entry (if any) is removed and resolved or rejected
exactly once; a failed response is additionally logged.  (The payload
of `mkResMsg` is `null`, so the hello-ok branch is never taken.) -/
theorem handleResMsg_mkRes (st : ConnState) (id : String) (ok : Bool) :
    handleMessage st (.parsed (mkResMsg id ok)) "" "" 0 "" =
      ((match st.pending.lookup id with
        | none => st
        | some _ => { st with pending := erasePending st.pending id }),
       (match st.pending.lookup id with
        | none => ([] : List Output)
        | some _ =>
          if ok then [Output.resolveP id .null]
          else [Output.rejectP id (.jsv (mkResMsg id ok))]) ++
        (if ok then [] else [Output.logReqFailed])) := by
  have hred : handleMessage st (.parsed (mkResMsg id ok)) "" "" 0 "" =
      handleResMsg st (mkResMsg id ok) := by cases ok <;> rfl
  have hid : (getField (mkResMsg id ok) "id").asString = some id := by
    cases ok <;> rfl
  rw [hred]
  unfold handleResMsg
  dsimp only
  rw [hid]
  dsimp only
  cases hlk : st.pending.lookup id <;> cases ok <;> rfl

/-- Per-event accounting: each registry event increases the total
occurrence count of an id (resolutions + rejections + still-pending)
by at most its registration count. -/
theorem regStep_countKey (st : ConnState) (e : RegEvent) (i : String) :
    countKey i (resolvedIds (regStep st e).2)
      + countKey i (rejectedIds (regStep st e).2)
      + countKey i (pendingIds (regStep st e).1)
    ≤ countKey i (pendingIds st) + countKey i (regIds [e]) := by
  cases e with
  | register id mth =>
    have hreg : countKey i (regIds [RegEvent.register id mth]) =
        if id = i then 1 else 0 := by
      simp [regIds, countKey]
    unfold regStep wsRequest
    dsimp only
    by_cases hw : (!st.wsPresent || st.readyState != 1) = true
    · rw [if_pos hw]
      simp only [resolvedIds, rejectedIds, pendingIds, List.filterMap_nil,
        countKey, hreg]
      omega
    · rw [if_neg hw]
      have hset := setPending_countKey st.pending id mth i
      simp only [resolvedIds, rejectedIds, pendingIds, List.filterMap_cons,
        List.filterMap_nil, countKey, hreg]
      simp only [pendingIds] at hset
      omega
  | response id ok =>
    have hreg : countKey i (regIds [RegEvent.response id ok]) = 0 := by
      simp [regIds, countKey]
    rw [show regStep st (.response id ok) =
        handleMessage st (.parsed (mkResMsg id ok)) "" "" 0 "" from rfl]
    rw [handleResMsg_mkRes]
    rw [hreg]
    cases hlk : st.pending.lookup id with
    | none =>
      cases ok <;>
        simp [resolvedIds, rejectedIds, pendingIds, List.filterMap_cons,
          countKey]
    | some mth =>
      have hera := erasePending_countKey st.pending id i mth hlk
      cases ok <;>
        (simp only [resolvedIds, rejectedIds, pendingIds, List.filterMap_cons,
          List.filterMap_append, List.filterMap_nil, List.append_nil,
          countKey, countKey_append]
         omega)
  | close c =>
    have hreg : countKey i (regIds [RegEvent.close c]) = 0 := by
      simp [regIds, countKey]
    have hrej := rejectedIds_closeRejections st.pending
      (.errObj ("gateway closed (" ++ Nat.repr c ++ ")"))
    have hres := resolvedIds_closeRejections st.pending
      (.errObj ("gateway closed (" ++ Nat.repr c ++ ")"))
    rw [show regStep st (.close c) = handleClose st c from rfl]
    unfold handleClose
    dsimp only
    rw [hreg, resolvedIds_append, rejectedIds_append, hres, hrej]
    simp only [resolvedIds, rejectedIds, pendingIds, List.filterMap_cons,
      List.filterMap_nil, countKey, countKey_append, List.append_nil]
    omega

/-- Trace-level accounting: over any event sequence, an id is
resolved, rejected or left pending at most as often as it was pending
initially plus the number of times it was registered. -/
theorem runReg_countKey (es : List RegEvent) :
    ∀ (st : ConnState) (i : String),
      countKey i (resolvedIds (runReg st es).2)
        + countKey i (rejectedIds (runReg st es).2)
        + countKey i (pendingIds (runReg st es).1)
      ≤ countKey i (pendingIds st) + countKey i (regIds es) := by
  induction es with
  | nil => intro st i; simp [runReg, resolvedIds, rejectedIds, regIds, countKey]
  | cons e rest ih =>
    intro st i
    have hstep := regStep_countKey st e i
    have htail := ih (regStep st e).1 i
    have hsplit2 : (runReg st (e :: rest)).2 =
        (regStep st e).2 ++ (runReg (regStep st e).1 rest).2 := rfl
    have hsplit1 : (runReg st (e :: rest)).1 =
        (runReg (regStep st e).1 rest).1 := rfl
    rw [hsplit1, hsplit2, resolvedIds_append, rejectedIds_append,
      countKey_append, countKey_append]
    have hreg : countKey i (regIds (e :: rest)) =
        countKey i (regIds [e]) + countKey i (regIds rest) := by
      cases e <;> simp [regIds, countKey, List.filterMap_cons]
    omega

/-- Claim C2: starting from an empty registry, over any sequence of
registrations (with pairwise-distinct, randomUUID-generated ids),
response arrivals and close events, no request id is ever resolved
more than once; and the close handler rejects exactly the still-pending
requests, each with the connection-closed error carrying the close
code, and leaves the registry empty. -/
theorem c2_registry :
    ∀ (st : ConnState) (es : List RegEvent) (i : String) (s : ConnState)
      (c : Nat),
      (st.pending = [] → (regIds es).Nodup →
        countKey i (resolvedIds (runReg st es).2) ≤ 1)
      ∧ (handleClose s c).1.pending = []
      ∧ (handleClose s c).2 =
          s.pending.map (fun q => Output.rejectP q.1
            (.errObj ("gateway closed (" ++ Nat.repr c ++ ")")))
          ++ [.scheduleReconnect s.backoff] := by
  intro st es i s c
  refine ⟨fun hp hnd => ?_, rfl, rfl⟩
  have h := runReg_countKey es st i
  have h0 : countKey i (pendingIds st) = 0 := by
    rw [pendingIds, hp]; rfl
  have h1 := countKey_le_one _ hnd i
  omega

/-- Witness for C2 at a concrete trace: a registered request answered
twice is resolved exactly once (the duplicate response is dropped);
closing with two pending requests rejects both with the
connection-closed error and empties the registry. -/
theorem c2_registry_witness :
    countKey "a" (resolvedIds (runReg openIdleState
      [.register "a" "m", .response "a" true, .response "a" true]).2) ≤ 1
    ∧ countKey "a" (resolvedIds (runReg openIdleState
        [.register "a" "m", .response "a" true, .response "a" true]).2) = 1
    ∧ (handleClose { openIdleState with pending := [("a", "m1"), ("b", "m2")] }
        5).2 =
        [.rejectP "a" (.errObj "gateway closed (5)"),
         .rejectP "b" (.errObj "gateway closed (5)"),
         .scheduleReconnect 1000]
    ∧ (handleClose { openIdleState with pending := [("a", "m1"), ("b", "m2")] }
        5).1.pending = [] := by
  have h := c2_registry openIdleState
    [.register "a" "m", .response "a" true, .response "a" true] "a"
    { openIdleState with pending := [("a", "m1"), ("b", "m2")] } 5
  exact ⟨h.1 rfl (by decide), rfl, h.2.2.trans rfl, h.2.1⟩

end PngAssistant
